import Mathlib

/-!
Shallow embedding of the X402 payment-gating subsystem of
`src/src/x402-plugin.ts` (SQLite-backed ledger, chain verifier, access
decision engine, provider de-duplication), together with theorems that
settle the specification claims about it.

Modelling conventions:
* The sql.js database handle (`this.db`, possibly `null`) is modelled as
  `Option DBState`; `none` is an unavailable store, mirroring the
  `if (!this.db)` guards in every method.
* The `users` table is an association list keyed by `user_id`; `UPDATE ...
  WHERE user_id = ?` is a map over matching entries, `SELECT` is `lookup`.
* Timestamps are natural numbers of milliseconds since the epoch (UTC, no
  DST: `Date.setDate(+d)` adds exactly `d * 86400000` ms), and calendar
  days (the date part of `toISOString()`) are day indices `now / 86400000`;
  operations take the relevant clock values as explicit arguments.
* USDC amounts decoded with `ethers.formatUnits(value, 6)` and compared or
  floored by the handler are modelled as exact rationals `value / 10^6`
  (the claims under study never touch inputs where IEEE-754 rounding of
  these small decimals could change a comparison or a floor at the stated
  thresholds).
* `fs.writeFileSync` persistence (`save()`) catches and logs any error and
  returns nothing; in the model it is the identity on the state.
-/

namespace X402

/-- CONFIG.FREE_DAILY_LIMIT (x402-plugin.ts line 25). -/
def FREE_DAILY_LIMIT : Int := 3

/-- CONFIG.PRO_PRICE_USDC (line 26). -/
def PRO_PRICE_USDC : ℚ := 5

/-- CONFIG.PRO_DURATION_DAYS (line 27). -/
def PRO_DURATION_DAYS : Nat := 30

/-- CONFIG.SINGLE_CREDIT_PRICE_USDC (line 28). -/
def SINGLE_CREDIT_PRICE_USDC : ℚ := 1 / 10

/-- CONFIG.USDC_ADDRESS (line 30), the hard-coded Base mainnet USDC contract. -/
def USDC_ADDRESS : String := "0x833589fCD6eDb6E08f4c7C32D4f71b54bdA02913"

/-- Milliseconds in one calendar day (UTC). -/
def dayMs : Nat := 86400000

/-- One row of the `users` table (schema at lines 95-107).  The INTEGER
`is_admin` / `is_pro` flags only ever hold 0 or 1 in this program, so they
are modelled as `Bool`; `credits` and `daily_free_used` are SQL INTEGERs,
modelled as `Int`; `pro_expires_at` and `daily_reset_date` are nullable
TEXT columns holding a timestamp and a calendar date. -/
structure UserRow where
  is_admin : Bool
  is_pro : Bool
  pro_expires_at : Option Nat
  credits : Int
  daily_free_used : Int
  daily_reset_date : Option Nat
  deriving Repr, DecidableEq

/-- One row of the append-only `payments` table (schema at lines 109-118). -/
structure Payment where
  tx_hash : String
  user_id : String
  amount : ℚ
  payment_type : String
  deriving Repr, DecidableEq

/-- The contents of the SQLite database. -/
structure DBState where
  users : List (String × UserRow)
  payments : List Payment
  deriving Repr, DecidableEq

/-- The database handle of `X402Database`: `none` models `this.db === null`
(storage unavailable). -/
abbrev X402DB := Option DBState

/-- X402Database.getUser (lines 141-152): `null` when the handle is null or
no row matches. -/
def getUser : X402DB → String → Option UserRow
  | none, _ => none
  | some s, uid => s.users.lookup uid

/-- The row INSERTed by ensureUser (lines 159-162): all columns at their
schema defaults except `daily_reset_date`, set to today. -/
def freshRow (today : Nat) : UserRow :=
  { is_admin := false, is_pro := false, pro_expires_at := none,
    credits := 0, daily_free_used := 0, daily_reset_date := some today }

/-- `UPDATE users SET ... WHERE user_id = ?`: rewrite every row whose key
matches (the primary key makes it at most one in reachable states). -/
def updateUser (s : DBState) (uid : String) (f : UserRow → UserRow) : DBState :=
  { s with users := s.users.map fun p => if p.1 == uid then (p.1, f p.2) else p }

/-- X402Database.ensureUser (lines 154-167): read, lazily INSERT a fresh
row when absent, re-read. -/
def ensureUser (db : X402DB) (uid : String) (today : Nat) : Option UserRow × X402DB :=
  match getUser db uid with
  | some u => (some u, db)
  | none =>
    match db with
    | none => (none, none)
    | some s =>
      let s2 : DBState := { s with users := s.users ++ [(uid, freshRow today)] }
      (getUser (some s2) uid, some s2)

/-- X402Database.checkAndResetDailyFree (lines 170-182): zero the daily
counter and stamp today when the stored reset date is stale. -/
def checkAndResetDailyFree (db : X402DB) (uid : String) (today : Nat) : X402DB :=
  match ensureUser db uid today with
  | (none, db1) => db1
  | (some u, db1) =>
    match db1 with
    | none => none
    | some s =>
      if u.daily_reset_date ≠ some today then
        some (updateUser s uid fun r =>
          { r with daily_free_used := 0, daily_reset_date := some today })
      else some s

/-- X402Database.getDailyFreeRemaining (lines 184-188). -/
def getDailyFreeRemaining (db : X402DB) (uid : String) (today : Nat) : Int × X402DB :=
  let db1 := checkAndResetDailyFree db uid today
  (max 0 (FREE_DAILY_LIMIT - (match getUser db1 uid with
    | some u => u.daily_free_used
    | none => 0)), db1)

/-- X402Database.consumeDailyFree (lines 190-202). -/
def consumeDailyFree (db : X402DB) (uid : String) (today : Nat) : Bool × X402DB :=
  let db1 := checkAndResetDailyFree db uid today
  let rem := getDailyFreeRemaining db1 uid today
  if rem.1 > 0 then
    match rem.2 with
    | none => (false, none)
    | some s =>
      (true, some (updateUser s uid fun r =>
        { r with daily_free_used := r.daily_free_used + 1 }))
  else (false, rem.2)

/-- X402Database.isPro (lines 205-222): `false` for a non-pro row; an
expiry strictly in the past lazily clears the flag and yields `false`;
otherwise `true`.  A null `pro_expires_at` parses to an Invalid Date whose
`<` comparison is always false, so such a row reads as not expired. -/
def isPro (db : X402DB) (uid : String) (now today : Nat) : Bool × X402DB :=
  match ensureUser db uid today with
  | (none, db1) => (false, db1)
  | (some u, db1) =>
    if !u.is_pro then (false, db1)
    else
      let expired := match u.pro_expires_at with
        | some e => decide (e < now)
        | none => false
      if expired then
        match db1 with
        | none => (false, none)
        | some s => (false, some (updateUser s uid fun r => { r with is_pro := false }))
      else (true, db1)

/-- X402Database.getProExpiresAt (lines 224-230): a pure read. -/
def getProExpiresAt (db : X402DB) (uid : String) : Option Nat :=
  match getUser db uid with
  | some u => u.pro_expires_at
  | none => none

/-- X402Database.grantPro (lines 232-245): stamp `is_pro = 1` and an expiry
of now plus the duration in days, overwriting any previous expiry. -/
def grantPro (db : X402DB) (uid : String) (durationDays : Nat) (now today : Nat) : X402DB :=
  match (ensureUser db uid today).2 with
  | none => none
  | some s =>
    some (updateUser s uid fun r =>
      { r with is_pro := true, pro_expires_at := some (now + durationDays * dayMs) })

/-- X402Database.isAdmin (lines 248-251): a pure read (no ensureUser). -/
def isAdmin (db : X402DB) (uid : String) : Bool :=
  match getUser db uid with
  | some u => u.is_admin
  | none => false

/-- X402Database.setAdmin (lines 253-263). -/
def setAdmin (db : X402DB) (uid : String) (status : Bool) (today : Nat) : X402DB :=
  match (ensureUser db uid today).2 with
  | none => none
  | some s => some (updateUser s uid fun r => { r with is_admin := status })

/-- X402Database.getCredits (lines 266-269). -/
def getCredits (db : X402DB) (uid : String) (today : Nat) : Int × X402DB :=
  match ensureUser db uid today with
  | (some u, db1) => (u.credits, db1)
  | (none, db1) => (0, db1)

/-- X402Database.addCredits (lines 271-281). -/
def addCredits (db : X402DB) (uid : String) (amount : Int) (today : Nat) : X402DB :=
  match (ensureUser db uid today).2 with
  | none => none
  | some s => some (updateUser s uid fun r => { r with credits := r.credits + amount })

/-- X402Database.consumeCredit (lines 283-294): decrement only when the
balance read is positive. -/
def consumeCredit (db : X402DB) (uid : String) (today : Nat) : Bool × X402DB :=
  let c := getCredits db uid today
  if c.1 > 0 then
    match c.2 with
    | none => (false, none)
    | some s => (true, some (updateUser s uid fun r => { r with credits := r.credits - 1 }))
  else (false, c.2)

/-- X402Database.isPaymentUsed (lines 297-304): `false` when the handle is
null or no payment row carries the hash. -/
def isPaymentUsed (db : X402DB) (tx : String) : Bool :=
  match db with
  | none => false
  | some s => s.payments.any fun p => p.tx_hash == tx

/-- X402Database.recordPayment (lines 306-315): append one payment row. -/
def recordPayment (db : X402DB) (tx uid : String) (amount : ℚ) (ptype : String) : X402DB :=
  match db with
  | none => none
  | some s => some { s with payments := s.payments ++ [⟨tx, uid, amount, ptype⟩] }

/-- The record returned by X402Database.getUserStatus (lines 318-333). -/
structure UserStatus where
  isProStatus : Bool
  proExpiresAt : Option Nat
  credits : Int
  dailyFreeRemaining : Int
  isAdminStatus : Bool
  deriving Repr, DecidableEq

/-- X402Database.getUserStatus (lines 318-333): the object-literal fields
evaluate left to right, threading the lazy side effects of each read. -/
def getUserStatus (db : X402DB) (uid : String) (now today : Nat) : UserStatus × X402DB :=
  let db1 := (ensureUser db uid today).2
  let pro := isPro db1 uid now today
  let pexp := getProExpiresAt pro.2 uid
  let cr := getCredits pro.2 uid today
  let rem := getDailyFreeRemaining cr.2 uid today
  ({ isProStatus := pro.1, proExpiresAt := pexp, credits := cr.1,
     dailyFreeRemaining := rem.1, isAdminStatus := isAdmin rem.2 uid }, rem.2)

/-- The record returned by X402Service.canAccess. -/
structure AccessResult where
  allowed : Bool
  reason : String
  consumeType : Option String
  deriving Repr, DecidableEq

/-- X402Service.canAccess (lines 462-476): admin, then live subscription,
then positive credits, then remaining daily free uses, else deny. -/
def canAccess (db : X402DB) (uid : String) (now today : Nat) : AccessResult × X402DB :=
  if isAdmin db uid then
    ({ allowed := true, reason := "admin", consumeType := none }, db)
  else
    let pro := isPro db uid now today
    if pro.1 then
      ({ allowed := true, reason := "pro", consumeType := none }, pro.2)
    else
      let cr := getCredits pro.2 uid today
      if cr.1 > 0 then
        ({ allowed := true, reason := "credit", consumeType := some "credit" }, cr.2)
      else
        let rem := getDailyFreeRemaining cr.2 uid today
        if rem.1 > 0 then
          ({ allowed := true, reason := "free", consumeType := some "free" }, rem.2)
        else
          ({ allowed := false, reason := "no_access", consumeType := none }, rem.2)

/-- X402Service.consumeAccess (lines 478-484). -/
def consumeAccess (db : X402DB) (uid : String) (consumeType : String) (today : Nat) : X402DB :=
  if consumeType == "credit" then (consumeCredit db uid today).2
  else if consumeType == "free" then (consumeDailyFree db uid today).2
  else db

/-- One Gate round trip: decide, then apply the indicated consumption (the
pattern of x402Provider.get lines 903-913). -/
def accessCheckAndConsume (db : X402DB) (uid : String) (now today : Nat) :
    AccessResult × X402DB :=
  let a := canAccess db uid now today
  match a.1.consumeType with
  | some ct => (a.1, consumeAccess a.2 uid ct today)
  | none => (a.1, a.2)

/-- Iterate `n` Gate round trips, collecting the decisions. -/
def runChecks (db : X402DB) (uid : String) (now today : Nat) :
    Nat → List AccessResult × X402DB
  | 0 => ([], db)
  | n + 1 =>
    let a := accessCheckAndConsume db uid now today
    let rest := runChecks a.2 uid now today n
    (a.1 :: rest.1, rest.2)

/-- Whether `pat` occurs as a contiguous sub-sequence of the character
list. -/
def hasSubList (pat : List Char) : List Char → Bool
  | [] => pat.isEmpty
  | c :: rest => pat.isPrefixOf (c :: rest) || hasSubList pat rest

/-- JS `String.prototype.includes`, over the character lists. -/
def includesSub (text pat : String) : Bool :=
  hasSubList pat.data text.data

/-- JS `String.prototype.toLowerCase` (over the code points relevant here:
ASCII), over the character list. -/
def jsToLower (s : String) : String :=
  String.mk (s.data.map Char.toLower)

/-- JS whitespace for `String.prototype.trim`: space, tab, LF, CR (the
forms that occur in chat text). -/
def isJsWhitespace (c : Char) : Bool :=
  c == Char.ofNat 32 || c == Char.ofNat 9 || c == Char.ofNat 10 || c == Char.ofNat 13

/-- JS `String.prototype.trim`, over the character list. -/
def jsTrim (s : String) : String :=
  String.mk (((s.data.dropWhile isJsWhitespace).reverse.dropWhile isJsWhitespace).reverse)

/-- One decoded `Transfer(address,address,uint256)` event from the receipt
log (x402-plugin.ts lines 514-524); logs that fail to parse as Transfer
events are skipped by the loop and so are not represented. -/
structure TransferLog where
  toAddr : String
  value : Nat
  deriving Repr, DecidableEq

/-- What the RPC endpoint knows about one transaction: `tx.to`, the receipt
status (`none` models a missing receipt, folded with status ≠ 1 by the
source check `!receipt || receipt.status !== 1`), and the decoded Transfer
events of the receipt, in log order. -/
structure ChainTx where
  toAddr : Option String
  receiptStatus : Option Nat
  logs : List TransferLog
  deriving Repr, DecidableEq

/-- The result record of verifyPaymentOnChain. -/
structure VerifyResult where
  verified : Bool
  amount : Option ℚ
  error : Option String
  isProAmount : Option Bool
  deriving Repr, DecidableEq

/-- verifyPaymentOnChain (lines 490-542), with the chain abstracted as a
map from transaction hash to on-chain data and the configured receiver
address passed explicitly.  The decoded amount is `value / 10^6` USDC;
`isProAmount` records `amount >= CONFIG.PRO_PRICE_USDC`.  Note: the only
amount comparison performed is against the Pro price; there is no
minimum-amount check anywhere in the function. -/
def verifyPaymentOnChain (chain : String → Option ChainTx) (receiver : String)
    (txHash : String) : VerifyResult :=
  match chain txHash with
  | none =>
    { verified := false, amount := none,
      error := some "トランザクションが見つかりません", isProAmount := none }
  | some tx =>
    if tx.receiptStatus ≠ some 1 then
      { verified := false, amount := none,
        error := some "トランザクションが失敗しています", isProAmount := none }
    else if tx.toAddr.map jsToLower ≠ some (jsToLower USDC_ADDRESS) then
      { verified := false, amount := none,
        error := some "USDC契約への転送ではありません", isProAmount := none }
    else
      match tx.logs.find? (fun l => jsToLower l.toAddr == jsToLower receiver) with
      | some l =>
        let amount : ℚ := (l.value : ℚ) / 1000000
        { verified := true, amount := some amount, error := none,
          isProAmount := some (decide (PRO_PRICE_USDC ≤ amount)) }
      | none =>
        { verified := false, amount := none,
          error := some "受取アドレスへの転送が見つかりません", isProAmount := none }

/-- The observable outcome of one verifyPaymentAction.handler run. -/
inductive HandlerOutcome where
  | noHash
  | alreadyUsed
  | notVerified
  | creditedSingle (creditsToAdd : Int)
  | grantedPro
  deriving Repr, DecidableEq

/-- verifyPaymentAction.handler (lines 716-780), after identity extraction:
`txHashMatch` is the result of matching `/0x[a-fA-F0-9]{64}/` against the
message text.  `result.verified && result.amount` uses JS truthiness, so a
decoded amount of exactly 0 takes the failure branch; `result.isPro` is
truthy only when it is literally `true`.  On success the payment row is
recorded first, then Pro is granted or `floor(amount / 0.1)` credits are
added. -/
def verifyPaymentHandler (db : X402DB) (chain : String → Option ChainTx)
    (receiver uid : String) (txHashMatch : Option String) (now today : Nat) :
    HandlerOutcome × X402DB :=
  match txHashMatch with
  | none => (.noHash, db)
  | some txHash =>
    if isPaymentUsed db txHash then (.alreadyUsed, db)
    else
      let result := verifyPaymentOnChain chain receiver txHash
      match result.amount with
      | some a =>
        if result.verified && !(a == 0) then
          let pro := result.isProAmount == some true
          let ptype := if pro then "pro" else "single"
          let db1 := recordPayment db txHash uid a ptype
          if pro then (.grantedPro, grantPro db1 uid PRO_DURATION_DAYS now today)
          else
            let creditsToAdd : Int := ⌊a / SINGLE_CREDIT_PRICE_USDC⌋
            (.creditedSingle creditsToAdd, addCredits db1 uid creditsToAdd today)
        else (.notVerified, db)
      | none => (.notVerified, db)

/-- One payment-proof submission for a fixed transaction hash: the
submitting user, the chain view and clock at submission time. -/
structure SubmitCall where
  uid : String
  chain : String → Option ChainTx
  receiver : String
  now : Nat
  today : Nat

/-- Run a sequence of submissions all carrying the same transaction hash
through verifyPaymentAction.handler, collecting the outcomes. -/
def submitRun (tx : String) (db : X402DB) :
    List SubmitCall → List HandlerOutcome × X402DB
  | [] => ([], db)
  | c :: cs =>
    let r := verifyPaymentHandler db c.chain c.receiver c.uid (some tx) c.now c.today
    let rest := submitRun tx r.2 cs
    (r.1 :: rest.1, rest.2)

/-- Whether a handler outcome applied a crediting operation
(addCredits or grantPro). -/
def isCrediting : HandlerOutcome → Bool
  | .creditedSingle _ => true
  | .grantedPro => true
  | _ => false

/-- Number of payment rows carrying a given transaction hash. -/
def paymentCount (db : X402DB) (tx : String) : Nat :=
  match db with
  | none => 0
  | some s => (s.payments.filter fun p => p.tx_hash == tx).length

/-- The single-quote character, named via its code point. -/
def squoteChar : Char := Char.ofNat 39

/-- A double or single quote, the character class of the trim regex at
lines 637/791/885/999. -/
def isQuoteChar (c : Char) : Bool := c == Char.ofNat 34 || c == squoteChar

/-- Drop one leading quote character if present. -/
def dropLeadingQuote : List Char → List Char
  | c :: rest => if isQuoteChar c then rest else c :: rest
  | [] => []

/-- The JS replace of the global regex matching one leading or one
trailing quote with the empty string: removes at most one leading and at
most one trailing quote (a single-character string that is itself a quote
is consumed by the leading alternative only). -/
def stripQuotes (s : String) : String :=
  let l1 := dropLeadingQuote s.data
  String.mk (dropLeadingQuote l1.reverse).reverse

/-- The admin-key comparison duplicated verbatim at lines 791-793, 885-886
and 998-1000: the cleaned text equals a truthy envKey, or it equals the
literal fallback secret "x402-admin-secret".  JS truthiness makes an unset
or empty environment value disable the first disjunct, while the literal
fallback disjunct is unconditional. -/
def adminKeyMatches (envKey : Option String) (text : String) : Bool :=
  let cleanedText := stripQuotes (jsTrim text)
  (match envKey with
   | some k => !(k == "") && cleanedText == k
   | none => false)
  || cleanedText == "x402-admin-secret"

/-- adminLoginAction.validate (lines 790-794). -/
def adminLoginValidate (envKey : Option String) (text : String) : Bool :=
  adminKeyMatches envKey text

/-- getMessageKey (lines 409-414): the message fingerprint. -/
def getMessageKey (roomId msgId text : String) : String :=
  roomId ++ ":" ++ msgId ++ ":" ++ String.mk (text.data.take 50)

/-- The special-message skip list of x402Provider.get (lines 877-879),
applied to the lower-cased text. -/
def specialSkip (textLower : String) : Bool :=
  includesSub textLower "支払いました" || includesSub textLower "paid" ||
  includesSub textLower "0x" || includesSub textLower "ステータス" ||
  includesSub textLower "status" || includesSub textLower "admin logout" ||
  includesSub textLower "adminログアウト"

/-- One entry of the process-wide `processedMessages` de-duplication map
(lines 340-345). -/
structure Marker where
  userId : String
  hasAccess : Bool
  consumed : Bool
  timestamp : Nat
  deriving Repr, DecidableEq

/-- JS `Map.set`: overwrite the entry when the key is present, otherwise
append it. -/
def setMarker (l : List (String × Marker)) (k : String) (v : Marker) :
    List (String × Marker) :=
  if l.any (fun p => p.1 == k) then
    l.map fun p => if p.1 == k then (p.1, v) else p
  else l ++ [(k, v)]

/-- The state read and written by one provider evaluation: the shared
de-duplication map and the ledger handle. -/
structure ProviderState where
  processedMessages : List (String × Marker)
  db : X402DB
  deriving Repr, DecidableEq

/-- The observable outcome of one x402Provider.get evaluation. -/
inductive ProviderOutcome where
  | skipSpecial
  | sharedGranted
  | granted (reason : String) (consumed : Bool)
  | blocked
  deriving Repr, DecidableEq

/-- x402Provider.get (lines 862-969), after identity extraction (the user
key, text and fingerprint are deterministic functions of the message, so a
repeated message reproduces them).  Branches, in source order: the
special-message skip; the admin-key skip; an existing marker with
`hasAccess` returns shared access before any ledger call; otherwise the
access check runs (with the `getUserStatus` logging read threading its
lazy side effects), and with no existing marker the verdict is recorded in
the map, consuming the indicated resource when there is one; with an
existing `hasAccess = false` marker the two granted branches are
unreachable and the map is left untouched. -/
def providerGet (st : ProviderState) (envKey : Option String)
    (uid text messageKey : String) (now today ts : Nat) :
    ProviderOutcome × ProviderState :=
  if specialSkip (jsToLower text) then (.skipSpecial, st)
  else if adminKeyMatches envKey text then (.skipSpecial, st)
  else
    match st.processedMessages.lookup messageKey with
    | some m =>
      if m.hasAccess then (.sharedGranted, st)
      else
        let a := canAccess st.db uid now today
        let db2 := (getUserStatus a.2 uid now today).2
        (.blocked, { st with db := db2 })
    | none =>
      let a := canAccess st.db uid now today
      let db2 := (getUserStatus a.2 uid now today).2
      if a.1.allowed then
        match a.1.consumeType with
        | some ct =>
          (.granted a.1.reason true,
           { processedMessages :=
               setMarker st.processedMessages messageKey ⟨uid, true, true, ts⟩,
             db := consumeAccess db2 uid ct today })
        | none =>
          (.granted a.1.reason false,
           { processedMessages :=
               setMarker st.processedMessages messageKey ⟨uid, true, false, ts⟩,
             db := db2 })
      else
        (.blocked,
         { processedMessages :=
             setMarker st.processedMessages messageKey ⟨uid, false, false, ts⟩,
           db := db2 })

/-- The per-call inputs of one provider evaluation of a message with a
fixed fingerprint. -/
structure ProvCall where
  envKey : Option String
  uid : String
  text : String
  now : Nat
  today : Nat
  ts : Nat

/-- Run a sequence of provider evaluations sharing one message
fingerprint, collecting the outcomes. -/
def providerRun (key : String) (st : ProviderState) :
    List ProvCall → List ProviderOutcome × ProviderState
  | [] => ([], st)
  | c :: cs =>
    let r := providerGet st c.envKey c.uid c.text key c.now c.today c.ts
    let rest := providerRun key r.2 cs
    (r.1 :: rest.1, rest.2)

/-- Whether a provider outcome performed a ledger consumption
(consumeCredit or consumeDailyFree via consumeAccess). -/
def outcomeConsumed : ProviderOutcome → Bool
  | .granted _ c => c
  | _ => false

/-- Number of consuming evaluations in a list of outcomes. -/
def consumedCount (os : List ProviderOutcome) : Nat :=
  (os.filter outcomeConsumed).length

/-- Number of crediting submissions in a list of handler outcomes. -/
def creditingCount (os : List HandlerOutcome) : Nat :=
  (os.filter isCrediting).length

/-- The credit balance a caller observes for a user (0 for an absent row,
as `user?.credits || 0` reads it). -/
def creditsOf (db : X402DB) (uid : String) : Int :=
  match getUser db uid with
  | some u => u.credits
  | none => 0

/-- The daily free-use counter a caller observes for a user (0 for an
absent row). -/
def freeUsedOf (db : X402DB) (uid : String) : Int :=
  match getUser db uid with
  | some u => u.daily_free_used
  | none => 0

/-- The account row an access check is about: the stored row, or the
implicitly-created zero row for a first reference (spec §3: absence and
zero-state are equivalent). -/
def rowOf (db : X402DB) (uid : String) (today : Nat) : UserRow :=
  (getUser db uid).getD (freshRow today)

/-- Modelled from the spec: §3/§4.4 "subscription is currently valid" for
an account row, at an instant. -/
def subActive (u : UserRow) (now : Nat) : Bool :=
  u.is_pro && !(match u.pro_expires_at with
    | some e => decide (e < now)
    | none => false)

/-- Modelled from the spec: §3 "daily free uses remain" for an account row
on a calendar day, after the lazy daily reset. -/
def freeRemainingSpec (u : UserRow) (today : Nat) : Int :=
  max 0 (FREE_DAILY_LIMIT -
    (if u.daily_reset_date ≠ some today then 0 else u.daily_free_used))

/-- Modelled from the spec: the §4.4 Access Decision Engine evaluation
order, first applicable wins — admin, live subscription, positive credits,
remaining free uses, deny.  This is the claim side of the refinement for
C1, to be compared with `canAccess`. -/
def decideSpec (u : UserRow) (now today : Nat) : AccessResult :=
  if u.is_admin then
    { allowed := true, reason := "admin", consumeType := none }
  else if subActive u now then
    { allowed := true, reason := "pro", consumeType := none }
  else if u.credits > 0 then
    { allowed := true, reason := "credit", consumeType := some "credit" }
  else if freeRemainingSpec u today > 0 then
    { allowed := true, reason := "free", consumeType := some "free" }
  else
    { allowed := false, reason := "no_access", consumeType := none }

/-- A zero-valued account row (no admin flag, no subscription, zero
credits) with `used` free uses consumed today; `zeroRow today 0` is
exactly the implicitly-created `freshRow today`. -/
def zeroRow (today : Nat) (used : Int) : UserRow :=
  { is_admin := false, is_pro := false, pro_expires_at := none,
    credits := 0, daily_free_used := used, daily_reset_date := some today }

/-- The configured receiver address default (CONFIG.RECEIVER_ADDRESS,
line 29), used by concrete counterexamples. -/
def RECEIVER_ADDRESS : String := "0x52d4901142e2b5680027da5eb47c86cb02a3ca81"

/-- A concrete chain view holding one successful USDC transaction whose
single Transfer event sends 50000 raw units (0.05 USDC, half the
single-credit price) to the configured receiver. -/
def lowAmountChain : String → Option ChainTx := fun h =>
  if h == "0xlow" then
    some ⟨some USDC_ADDRESS, some 1, [⟨RECEIVER_ADDRESS, 50000⟩]⟩
  else none

/-! Association-list lemmas shared by the proofs below. -/

theorem lookup_map_entry {β : Type} (l : List (String × β)) (k : String) (f : β → β) :
    (l.map fun p => if p.1 == k then (p.1, f p.2) else p).lookup k
      = (l.lookup k).map f := by
  induction l with
  | nil => rfl
  | cons p t ih =>
    obtain ⟨a, v⟩ := p
    cases hab : a == k with
    | true =>
      have ha : a = k := by simpa using hab
      subst ha
      simp [List.lookup_cons, ih]
    | false =>
      have hne : ¬a = k := by simpa using hab
      have hka : (k == a) = false := by
        simp only [beq_eq_false_iff_ne]
        exact fun h => hne h.symm
      simp [List.lookup_cons, hab, hka, hne] at ih ⊢
      exact ih

theorem lookup_append_singleton {β : Type} (l : List (String × β)) (k : String) (v : β)
    (h : l.lookup k = none) : (l ++ [(k, v)]).lookup k = some v := by
  rw [List.lookup_append, h]
  simp [List.lookup_cons]

theorem any_key_eq_lookup_isSome {β : Type} (l : List (String × β)) (k : String) :
    (l.any fun p => p.1 == k) = (l.lookup k).isSome := by
  induction l with
  | nil => rfl
  | cons p t ih =>
    obtain ⟨a, v⟩ := p
    cases hab : a == k with
    | true =>
      have ha : a = k := by simpa using hab
      subst ha
      simp [List.lookup_cons]
    | false =>
      have hne : ¬a = k := by simpa using hab
      have hka : (k == a) = false := by
        simp only [beq_eq_false_iff_ne]
        exact fun h => hne h.symm
      simp [List.lookup_cons, hab, hka, hne, ih]

theorem lookup_setMarker (l : List (String × Marker)) (k : String) (v : Marker) :
    (setMarker l k v).lookup k = some v := by
  unfold setMarker
  cases h : (l.any fun p => p.1 == k) with
  | true =>
    rw [if_pos rfl]
    have h2 := lookup_map_entry l k (fun _ => v)
    have hh : (l.lookup k).isSome := by rw [← any_key_eq_lookup_isSome, h]
    rcases hv : l.lookup k with _ | m
    · rw [hv] at hh
      simp at hh
    · rw [hv] at h2
      simpa using h2
  | false =>
    rw [if_neg (by simp)]
    apply lookup_append_singleton
    have hs := any_key_eq_lookup_isSome l k
    rw [h] at hs
    rcases hv : l.lookup k with _ | m
    · rfl
    · rw [hv] at hs
      simp at hs

/-! Projection values of the implicitly-created fresh row. -/

@[simp] theorem freshRow_is_admin (t : Nat) : (freshRow t).is_admin = false := rfl

@[simp] theorem freshRow_is_pro (t : Nat) : (freshRow t).is_pro = false := rfl

@[simp] theorem freshRow_pro_expires_at (t : Nat) : (freshRow t).pro_expires_at = none := rfl

@[simp] theorem freshRow_credits (t : Nat) : (freshRow t).credits = 0 := rfl

@[simp] theorem freshRow_daily_free_used (t : Nat) : (freshRow t).daily_free_used = 0 := rfl

@[simp] theorem freshRow_daily_reset_date (t : Nat) :
    (freshRow t).daily_reset_date = some t := rfl

/-! Computation lemmas for the ledger operations on a state whose row for
the user is known. -/

theorem ensureUser_lookup_some (s : DBState) (uid : String) (today : Nat) (u : UserRow)
    (h : s.users.lookup uid = some u) :
    ensureUser (some s) uid today = (some u, some s) := by
  simp [ensureUser, getUser, h]

theorem ensureUser_lookup_none (s : DBState) (uid : String) (today : Nat)
    (h : s.users.lookup uid = none) :
    ensureUser (some s) uid today =
      (some (freshRow today),
       some { s with users := s.users ++ [(uid, freshRow today)] }) := by
  simp [ensureUser, getUser, h, lookup_append_singleton _ _ _ h]

theorem lookup_updateUser (s : DBState) (uid : String) (f : UserRow → UserRow) :
    (updateUser s uid f).users.lookup uid = (s.users.lookup uid).map f :=
  lookup_map_entry s.users uid f

theorem getUser_updateUser (s : DBState) (uid : String) (f : UserRow → UserRow) :
    getUser (some (updateUser s uid f)) uid = (s.users.lookup uid).map f :=
  lookup_map_entry s.users uid f

/-- C5: consumeCredit returns true and decrements the balance by one
exactly when the balance before the call is positive; when the balance is
not positive it returns false and leaves the balance unchanged; hence a
non-negative balance never becomes negative. -/
theorem c5_consumeCredit_no_negative (s : DBState) (uid : String) (today : Nat) :
    ((consumeCredit (some s) uid today).1 = true ↔ 0 < creditsOf (some s) uid) ∧
    creditsOf (consumeCredit (some s) uid today).2 uid =
      (if 0 < creditsOf (some s) uid then creditsOf (some s) uid - 1
       else creditsOf (some s) uid) ∧
    (0 ≤ creditsOf (some s) uid →
      0 ≤ creditsOf (consumeCredit (some s) uid today).2 uid) := by
  rcases hu : s.users.lookup uid with _ | u
  · have he := ensureUser_lookup_none s uid today hu
    have hl := lookup_append_singleton s.users uid (freshRow today) hu
    have hc0 : (freshRow today).credits = 0 := rfl
    simp [consumeCredit, getCredits, he, creditsOf, getUser, hu, hl, hc0]
  · have he := ensureUser_lookup_some s uid today u hu
    by_cases hc : 0 < u.credits
    · have hg := lookup_updateUser s uid (fun r => { r with credits := r.credits - 1 })
      rw [hu] at hg
      simp [consumeCredit, getCredits, he, creditsOf, getUser, hu, hc, hg]
      omega
    · simp [consumeCredit, getCredits, he, creditsOf, getUser, hu, hc]

/-- C5 witness: a user holding one credit spends it, reaching zero. -/
theorem c5_consumeCredit_no_negative_witness :
    0 ≤ creditsOf (some ⟨[("alice", { zeroRow 0 0 with credits := 1 })], []⟩) "alice" ∧
    0 ≤ creditsOf (consumeCredit
      (some ⟨[("alice", { zeroRow 0 0 with credits := 1 })], []⟩) "alice" 0).2 "alice" :=
  ⟨by decide,
   (c5_consumeCredit_no_negative ⟨[("alice", { zeroRow 0 0 with credits := 1 })], []⟩
     "alice" 0).2.2 (by decide)⟩

/-- C9 counterexample: with the storage handle gone, every cited read
returns exactly the ordinary value an intact store returns for an absent
user, an unredeemed payment and an empty balance — the failure is coerced,
not reported as a distinguishable error kind. -/
theorem c9_counterexample :
    getUser none "alice" = getUser (some ⟨[], []⟩) "alice" ∧
    isPaymentUsed none "0xdead" = isPaymentUsed (some ⟨[], []⟩) "0xdead" ∧
    (consumeCredit none "alice" 0).1 =
      (consumeCredit (some ⟨[("alice", zeroRow 0 0)], []⟩) "alice" 0).1 := by
  exact ⟨rfl, rfl, rfl⟩

/-- C9 amended: ledger operations invoked while storage is unavailable are
coerced into ordinary return values — a null user, payment-not-used,
consumption refusals and a full free quota — and `save` failures are
caught and logged (the identity in this model); no distinguishable error
kind exists in any return type. -/
theorem c9_storage_failure_coerced (uid tx : String) (today : Nat) :
    getUser none uid = none ∧
    isPaymentUsed none tx = false ∧
    getCredits none uid today = (0, none) ∧
    consumeCredit none uid today = (false, none) ∧
    (getDailyFreeRemaining none uid today).1 = FREE_DAILY_LIMIT ∧
    consumeDailyFree none uid today = (false, none) := by
  refine ⟨rfl, rfl, rfl, rfl, rfl, rfl⟩

/-- C8 counterexample: with an admin-secret environment value configured
(here "supersecret"), the claim says validation returns true exactly when
the cleaned text equals that value; yet the unrelated literal fallback
"x402-admin-secret" still validates. -/
theorem c8_counterexample :
    adminLoginValidate (some "supersecret") "x402-admin-secret" = true ∧
    stripQuotes (jsTrim "x402-admin-secret") ≠ "supersecret" := by
  exact ⟨by decide, by decide⟩

/-- C8 amended: for every environment configuration and every inbound
message, admin-login validation returns true exactly when the trimmed,
quote-stripped message text equals a configured non-empty environment key
or equals the literal fallback secret — so the literal is accepted
regardless of configuration, and when no (or an empty) key is configured
nothing but the literal validates. -/
theorem c8_admin_login_validate (envKey : Option String) (text : String) :
    adminLoginValidate envKey text = true ↔
      ((∃ k, envKey = some k ∧ k ≠ "" ∧ stripQuotes (jsTrim text) = k) ∨
       stripQuotes (jsTrim text) = "x402-admin-secret") := by
  rcases envKey with _ | k
  · simp [adminLoginValidate, adminKeyMatches]
  · by_cases hk : k = ""
    · subst hk
      simp [adminLoginValidate, adminKeyMatches]
    · simp [adminLoginValidate, adminKeyMatches, hk]

/-- C8 witness: the exact configured key validates; a quote-wrapped,
padded literal validates even though a different key is configured; a text
matching neither is refused under that configured key. -/
theorem c8_admin_login_validate_witness :
    adminLoginValidate (some "k1") "k1" = true ∧
    adminLoginValidate (some "k1") "  \"x402-admin-secret\"  " = true ∧
    adminLoginValidate (some "k1") "nope" = false :=
  ⟨(c8_admin_login_validate (some "k1") "k1").mpr
     (Or.inl ⟨"k1", rfl, by decide, by decide⟩),
   (c8_admin_login_validate (some "k1") "  \"x402-admin-secret\"  ").mpr
     (Or.inr (by decide)),
   by
     cases hb : adminLoginValidate (some "k1") "nope" with
     | false => rfl
     | true =>
       rcases (c8_admin_login_validate (some "k1") "nope").mp hb with ⟨k, hk, _, hc⟩ | hc
       · rw [Option.some.injEq] at hk
         subst hk
         exact absurd hc (by decide)
       · exact absurd hc (by decide)⟩

/-- C7 counterexample: a subscription row whose expiry equals the current
instant.  The claim says the check returns false at every instant at or
after expiry, but the strict comparison `expiresAt < new Date()` makes
isPro return true at the expiry instant itself. -/
theorem c7_counterexample :
    (isPro (some ⟨[("u", { zeroRow 0 0 with is_pro := true, pro_expires_at := some 1000 })], []⟩)
      "u" 1000 0).1 = true := by
  decide

/-- C7 amended: granting a subscription of duration D days sets the expiry
to grant time plus D days, overwriting any prior expiry; the check returns
true at every instant up to and including expiry, and at every instant
strictly after expiry it returns false and clears the subscription flag,
with no explicit revoke call. -/
theorem c7_subscription_expiry (s : DBState) (uid : String) (dd now today : Nat) :
    getUser (grantPro (some s) uid dd now today) uid =
      some { rowOf (some s) uid today with
        is_pro := true,
        pro_expires_at := some (now + dd * dayMs) } ∧
    (∀ u e, s.users.lookup uid = some u → u.is_pro = true →
      u.pro_expires_at = some e →
      (now ≤ e → isPro (some s) uid now today = (true, some s)) ∧
      (e < now → isPro (some s) uid now today =
        (false, some (updateUser s uid fun r => { r with is_pro := false })))) := by
  constructor
  · rcases hu : s.users.lookup uid with _ | u
    · have he := ensureUser_lookup_none s uid today hu
      have hg := getUser_updateUser { s with users := s.users ++ [(uid, freshRow today)] }
        uid (fun r => { r with is_pro := true, pro_expires_at := some (now + dd * dayMs) })
      simp only [lookup_append_singleton s.users uid (freshRow today) hu] at hg
      simp only [grantPro, he]
      rw [hg]
      simp [rowOf, getUser, hu]
    · have he := ensureUser_lookup_some s uid today u hu
      have hg := getUser_updateUser s uid
        (fun r => { r with is_pro := true, pro_expires_at := some (now + dd * dayMs) })
      rw [hu] at hg
      simp only [grantPro, he]
      rw [hg]
      simp [rowOf, getUser, hu]
  · intro u e hu hp hee
    have he := ensureUser_lookup_some s uid today u hu
    constructor
    · intro hle
      have : ¬e < now := by omega
      simp [isPro, he, hp, hee, this]
    · intro hlt
      simp [isPro, he, hp, hee, hlt]

/-- C7 witness: grant 30 days at time 0 stamps expiry 30 days out; a live
subscription reads true, an expired one reads false and is cleared. -/
theorem c7_subscription_expiry_witness :
    getUser (grantPro (some ⟨[], []⟩) "u" 30 0 0) "u" =
      some { rowOf (some (⟨[], []⟩ : DBState)) "u" 0 with
        is_pro := true,
        pro_expires_at := some (0 + 30 * dayMs) } ∧
    isPro (some ⟨[("u", { zeroRow 0 0 with is_pro := true, pro_expires_at := some 5 })], []⟩)
        "u" 3 0 =
      (true,
       some ⟨[("u", { zeroRow 0 0 with is_pro := true, pro_expires_at := some 5 })], []⟩) :=
  ⟨(c7_subscription_expiry ⟨[], []⟩ "u" 30 0 0).1,
   ((c7_subscription_expiry
       (⟨[("u", { zeroRow 0 0 with is_pro := true, pro_expires_at := some 5 })], []⟩)
       "u" 30 3 0).2
     { zeroRow 0 0 with is_pro := true, pro_expires_at := some 5 } 5
     (by decide) (by decide) (by decide)).1 (by decide)⟩

/-- C1: the access decision of X402Service.canAccess equals the specified
fixed priority order admin > subscription > credit > free-use > deny,
evaluated on the stored account row (the implicit zero row for an absent
user); the if-chain shape of `decideSpec` makes exactly one branch apply
per call. -/
theorem c1_access_priority (s : DBState) (uid : String) (now today : Nat) :
    (canAccess (some s) uid now today).1
      = decideSpec (rowOf (some s) uid today) now today := by
  rcases hu : s.users.lookup uid with _ | u
  · have he := ensureUser_lookup_none s uid today hu
    have hl : (s.users ++ [(uid, freshRow today)]).lookup uid
        = some (freshRow today) := lookup_append_singleton s.users uid (freshRow today) hu
    have he2 := ensureUser_lookup_some
      { s with users := s.users ++ [(uid, freshRow today)] } uid today (freshRow today)
      (by simpa using hl)
    simp [canAccess, isAdmin, getUser, hu, isPro, he, he2, getCredits,
      getDailyFreeRemaining, checkAndResetDailyFree, rowOf, decideSpec, subActive,
      freeRemainingSpec, FREE_DAILY_LIMIT, hl, apply_ite]
  · have he := ensureUser_lookup_some s uid today u hu
    by_cases ha : u.is_admin
    · simp [canAccess, isAdmin, getUser, hu, ha, rowOf, decideSpec]
    · cases hp : u.is_pro with
      | false =>
        by_cases hc : 0 < u.credits
        · simp [canAccess, isAdmin, getUser, hu, ha, isPro, he, hp, getCredits, hc,
            rowOf, decideSpec, subActive]
        · by_cases hd : u.daily_reset_date = some today
          · simp [canAccess, isAdmin, getUser, hu, ha, isPro, he, hp, getCredits, hc,
              getDailyFreeRemaining, checkAndResetDailyFree, hd, rowOf, decideSpec,
              subActive, freeRemainingSpec, FREE_DAILY_LIMIT, apply_ite]
          · have hg := lookup_updateUser s uid
              (fun r => { r with daily_free_used := 0, daily_reset_date := some today })
            rw [hu] at hg
            simp [canAccess, isAdmin, getUser, hu, ha, isPro, he, hp, getCredits, hc,
              getDailyFreeRemaining, checkAndResetDailyFree, hd, hg, rowOf, decideSpec,
              subActive, freeRemainingSpec, FREE_DAILY_LIMIT, apply_ite]
      | true =>
        rcases hpe : u.pro_expires_at with _ | e
        · simp [canAccess, isAdmin, getUser, hu, ha, isPro, he, hp, hpe, rowOf,
            decideSpec, subActive]
        · by_cases hexp : e < now
          · -- expired: the flag is lazily cleared, then credits and free run
            -- on the updated row, whose credit and daily fields match `u`.
            have hg := lookup_updateUser s uid (fun r => { r with is_pro := false })
            rw [hu] at hg
            have he2 := ensureUser_lookup_some
              (updateUser s uid fun r => { r with is_pro := false }) uid today
              { u with is_pro := false } (by simpa using hg)
            by_cases hc : 0 < u.credits
            · simp [canAccess, isAdmin, getUser, hu, ha, isPro, he, hp, hpe, hexp,
                he2, getCredits, hc, rowOf, decideSpec, subActive]
            · by_cases hd : u.daily_reset_date = some today
              · simp [canAccess, isAdmin, getUser, hu, ha, isPro, he, hp, hpe, hexp,
                  he2, getCredits, hc, getDailyFreeRemaining, checkAndResetDailyFree,
                  hd, hg, rowOf, decideSpec, subActive, freeRemainingSpec,
                  FREE_DAILY_LIMIT, apply_ite]
              · have hg2 := lookup_updateUser
                  (updateUser s uid fun r => { r with is_pro := false }) uid
                  (fun r => { r with daily_free_used := 0, daily_reset_date := some today })
                rw [hg] at hg2
                simp [canAccess, isAdmin, getUser, hu, ha, isPro, he, hp, hpe, hexp,
                  he2, getCredits, hc, getDailyFreeRemaining, checkAndResetDailyFree,
                  hd, hg, hg2, rowOf, decideSpec, subActive, freeRemainingSpec,
                  FREE_DAILY_LIMIT, apply_ite]
          · simp [canAccess, isAdmin, getUser, hu, ha, isPro, he, hp, hpe, hexp,
              rowOf, decideSpec, subActive]

/-- C3 counterexample: a confirmed on-chain transfer of 0.05 USDC — half
the minimum single-unit price — to the receiver still verifies with
`verified = true` and no error; the "amount too low" failure the claim
describes does not exist in verifyPaymentOnChain. -/
theorem c3_counterexample :
    (verifyPaymentOnChain lowAmountChain RECEIVER_ADDRESS "0xlow").verified = true ∧
    (verifyPaymentOnChain lowAmountChain RECEIVER_ADDRESS "0xlow").amount = some (1 / 20) ∧
    (1 : ℚ) / 20 < SINGLE_CREDIT_PRICE_USDC ∧
    (verifyPaymentOnChain lowAmountChain RECEIVER_ADDRESS "0xlow").error = none := by
  have hv : verifyPaymentOnChain lowAmountChain RECEIVER_ADDRESS "0xlow" =
      { verified := true, amount := some (((50000 : Nat) : ℚ) / 1000000), error := none,
        isProAmount := some (decide (PRO_PRICE_USDC ≤ ((50000 : Nat) : ℚ) / 1000000)) } := by
    simp [verifyPaymentOnChain, lowAmountChain]
  refine ⟨by rw [hv], ?_, ?_, by rw [hv]⟩
  · rw [hv]
    norm_num
  · norm_num [SINGLE_CREDIT_PRICE_USDC]

/-- C3 amended: verifyPaymentOnChain performs no minimum-amount check.
Every transaction that is found, has a successful receipt, targets the
USDC contract and carries a Transfer log to the receiving address
verifies, returning the decoded amount — even one below the single-unit
price; the only amount comparison is the Pro-price classification. -/
theorem c3_no_minimum_amount_check (chain : String → Option ChainTx)
    (receiver txHash : String) (t : ChainTx) (l : TransferLog)
    (h1 : chain txHash = some t) (h2 : t.receiptStatus = some 1)
    (h3 : t.toAddr.map jsToLower = some (jsToLower USDC_ADDRESS))
    (h4 : t.logs.find? (fun l => jsToLower l.toAddr == jsToLower receiver) = some l) :
    verifyPaymentOnChain chain receiver txHash =
      { verified := true, amount := some ((l.value : ℚ) / 1000000), error := none,
        isProAmount := some (decide (PRO_PRICE_USDC ≤ (l.value : ℚ) / 1000000)) } := by
  simp [verifyPaymentOnChain, h1, h2, h3, h4]

/-- C3 witness: the concrete 0.05 USDC transaction instantiates the
amended claim. -/
theorem c3_no_minimum_amount_check_witness :
    verifyPaymentOnChain lowAmountChain RECEIVER_ADDRESS "0xlow" =
      { verified := true, amount := some (((50000 : Nat) : ℚ) / 1000000), error := none,
        isProAmount := some (decide (PRO_PRICE_USDC ≤ ((50000 : Nat) : ℚ) / 1000000)) } :=
  c3_no_minimum_amount_check lowAmountChain RECEIVER_ADDRESS "0xlow"
    ⟨some USDC_ADDRESS, some 1, [⟨RECEIVER_ADDRESS, 50000⟩]⟩ ⟨RECEIVER_ADDRESS, 50000⟩
    (by simp [lowAmountChain]) rfl rfl (by simp)

/-! Projection values of the zero-valued account row. -/

@[simp] theorem zeroRow_is_admin (t : Nat) (n : Int) : (zeroRow t n).is_admin = false := rfl

@[simp] theorem zeroRow_is_pro (t : Nat) (n : Int) : (zeroRow t n).is_pro = false := rfl

@[simp] theorem zeroRow_pro_expires_at (t : Nat) (n : Int) :
    (zeroRow t n).pro_expires_at = none := rfl

@[simp] theorem zeroRow_credits (t : Nat) (n : Int) : (zeroRow t n).credits = 0 := rfl

@[simp] theorem zeroRow_daily_free_used (t : Nat) (n : Int) :
    (zeroRow t n).daily_free_used = n := rfl

@[simp] theorem zeroRow_daily_reset_date (t : Nat) (n : Int) :
    (zeroRow t n).daily_reset_date = some t := rfl

/-- One Gate round trip on a zero-valued account row already stamped with
today: a free grant consuming one use while uses remain, else a denial. -/
theorem accessStep_zeroRow (s : DBState) (uid : String) (now today : Nat) (used : Int)
    (hu : s.users.lookup uid = some (zeroRow today used)) :
    accessCheckAndConsume (some s) uid now today =
      (if used < FREE_DAILY_LIMIT
        then { allowed := true, reason := "free", consumeType := some "free" }
        else { allowed := false, reason := "no_access", consumeType := none },
       if used < FREE_DAILY_LIMIT
        then some (updateUser s uid fun r =>
          { r with daily_free_used := r.daily_free_used + 1 })
        else some s) := by
  have he := ensureUser_lookup_some s uid today _ hu
  have hfc : (("free" : String) == "credit") = false := by decide
  have hff : (("free" : String) == "free") = true := by decide
  by_cases hlt : used < FREE_DAILY_LIMIT
  · have h3 : (0 : Int) < max 0 (FREE_DAILY_LIMIT - used) := by
      simp only [FREE_DAILY_LIMIT] at *
      omega
    simp [accessCheckAndConsume, canAccess, isAdmin, getUser, hu, isPro, he,
      getCredits, getDailyFreeRemaining, checkAndResetDailyFree, consumeAccess,
      consumeDailyFree, hlt, h3, hfc, hff]
  · have h3 : ¬(0 : Int) < max 0 (FREE_DAILY_LIMIT - used) := by
      simp only [FREE_DAILY_LIMIT] at *
      omega
    simp [accessCheckAndConsume, canAccess, isAdmin, getUser, hu, isPro, he,
      getCredits, getDailyFreeRemaining, checkAndResetDailyFree, consumeAccess,
      consumeDailyFree, hlt, h3, hfc, hff]

/-- The first Gate round trip for an absent user: the zero account is
implicitly created and the first free use is consumed. -/
theorem accessStep_absent (s : DBState) (uid : String) (now today : Nat)
    (hu : s.users.lookup uid = none) :
    accessCheckAndConsume (some s) uid now today =
      ({ allowed := true, reason := "free", consumeType := some "free" },
       some (updateUser { s with users := s.users ++ [(uid, freshRow today)] } uid
         fun r => { r with daily_free_used := r.daily_free_used + 1 })) := by
  have he := ensureUser_lookup_none s uid today hu
  have hl : (s.users ++ [(uid, freshRow today)]).lookup uid = some (freshRow today) :=
    lookup_append_singleton s.users uid (freshRow today) hu
  have he2 := ensureUser_lookup_some
    { s with users := s.users ++ [(uid, freshRow today)] } uid today (freshRow today)
    (by simpa using hl)
  have hfc : (("free" : String) == "credit") = false := by decide
  have hff : (("free" : String) == "free") = true := by decide
  simp [accessCheckAndConsume, canAccess, isAdmin, getUser, hu, isPro, he, he2,
    getCredits, getDailyFreeRemaining, checkAndResetDailyFree, consumeAccess,
    consumeDailyFree, hl, hfc, hff, FREE_DAILY_LIMIT]

/-- C6: starting from the implicit zero account on a single calendar day,
exactly the first FREE_DAILY_LIMIT Gate round trips succeed with the free
resource and the next is denied; one consumeDailyFree never pushes the
counter beyond FREE_DAILY_LIMIT; and the lazy daily reset fires exactly
when the stored reset date differs from today — once it has run (or the
date already matches), a repeated check the same day is the identity, so
the reset cannot fire twice in one day. -/
theorem c6_daily_free_limit :
    (∀ (s : DBState) (uid : String) (now today : Nat),
      s.users.lookup uid = none →
      (runChecks (some s) uid now today 4).1 =
        [{ allowed := true, reason := "free", consumeType := some "free" },
         { allowed := true, reason := "free", consumeType := some "free" },
         { allowed := true, reason := "free", consumeType := some "free" },
         { allowed := false, reason := "no_access", consumeType := none }]) ∧
    (∀ (s : DBState) (uid : String) (today : Nat),
      freeUsedOf (some s) uid ≤ FREE_DAILY_LIMIT →
      freeUsedOf (consumeDailyFree (some s) uid today).2 uid ≤ FREE_DAILY_LIMIT) ∧
    (∀ (s : DBState) (uid : String) (today : Nat) (u : UserRow),
      s.users.lookup uid = some u →
      (u.daily_reset_date ≠ some today →
        checkAndResetDailyFree (some s) uid today =
          some (updateUser s uid fun r =>
            { r with daily_free_used := 0, daily_reset_date := some today })) ∧
      (u.daily_reset_date = some today →
        checkAndResetDailyFree (some s) uid today = some s) ∧
      checkAndResetDailyFree (checkAndResetDailyFree (some s) uid today) uid today =
        checkAndResetDailyFree (some s) uid today) := by
  refine ⟨?_, ?_, ?_⟩
  · intro s uid now today hu
    have h1 := accessStep_absent s uid now today hu
    have hl0 : (s.users ++ [(uid, freshRow today)]).lookup uid = some (freshRow today) :=
      lookup_append_singleton s.users uid (freshRow today) hu
    have hl1 : (updateUser { s with users := s.users ++ [(uid, freshRow today)] } uid
        (fun r => { r with daily_free_used := r.daily_free_used + 1 })).users.lookup uid
        = some (zeroRow today 1) := by
      rw [lookup_updateUser]
      rw [show ({ s with users := s.users ++ [(uid, freshRow today)] } : DBState).users
            = s.users ++ [(uid, freshRow today)] from rfl]
      rw [hl0]
      simp [freshRow, zeroRow]
    have h2 := accessStep_zeroRow _ uid now today 1 hl1
    have hl2 : (updateUser (updateUser
          { s with users := s.users ++ [(uid, freshRow today)] } uid
          (fun r => { r with daily_free_used := r.daily_free_used + 1 })) uid
        (fun r => { r with daily_free_used := r.daily_free_used + 1 })).users.lookup uid
        = some (zeroRow today 2) := by
      rw [lookup_updateUser, hl1]
      simp [zeroRow]
    have h3 := accessStep_zeroRow _ uid now today 2 hl2
    have hl3 : (updateUser (updateUser (updateUser
          { s with users := s.users ++ [(uid, freshRow today)] } uid
          (fun r => { r with daily_free_used := r.daily_free_used + 1 })) uid
          (fun r => { r with daily_free_used := r.daily_free_used + 1 })) uid
        (fun r => { r with daily_free_used := r.daily_free_used + 1 })).users.lookup uid
        = some (zeroRow today 3) := by
      rw [lookup_updateUser, hl2]
      simp [zeroRow]
    have h4 := accessStep_zeroRow _ uid now today 3 hl3
    simp [runChecks, h1, h2, h3, h4, FREE_DAILY_LIMIT, apply_ite]
  · intro s uid today hfu
    rcases hu : s.users.lookup uid with _ | u
    · have he := ensureUser_lookup_none s uid today hu
      have hl : (s.users ++ [(uid, freshRow today)]).lookup uid = some (freshRow today) :=
        lookup_append_singleton s.users uid (freshRow today) hu
      have he2 := ensureUser_lookup_some
        { s with users := s.users ++ [(uid, freshRow today)] } uid today (freshRow today)
        (by simpa using hl)
      have hg := lookup_updateUser { s with users := s.users ++ [(uid, freshRow today)] } uid
        (fun r => { r with daily_free_used := r.daily_free_used + 1 })
      rw [show ({ s with users := s.users ++ [(uid, freshRow today)] } : DBState).users
            = s.users ++ [(uid, freshRow today)] from rfl, hl] at hg
      have hrem : (0 : Int) < FREE_DAILY_LIMIT := by norm_num [FREE_DAILY_LIMIT]
      have hcd : consumeDailyFree (some s) uid today =
          (true, some (updateUser { s with users := s.users ++ [(uid, freshRow today)] } uid
            fun r => { r with daily_free_used := r.daily_free_used + 1 })) := by
        simp [consumeDailyFree, getDailyFreeRemaining, checkAndResetDailyFree, he, he2,
          getUser, hl, hrem]
      rw [hcd]
      simp only [freeUsedOf, getUser, hg]
      simp [FREE_DAILY_LIMIT]
    · have he := ensureUser_lookup_some s uid today u hu
      simp only [freeUsedOf, getUser, hu] at hfu
      by_cases hd : u.daily_reset_date = some today
      · by_cases hlt : u.daily_free_used < FREE_DAILY_LIMIT
        · have hrem : (0 : Int) < FREE_DAILY_LIMIT - u.daily_free_used := by
            simp only [FREE_DAILY_LIMIT] at hlt ⊢
            omega
          have hg := lookup_updateUser s uid
            (fun r => { r with daily_free_used := r.daily_free_used + 1 })
          rw [hu] at hg
          have hcd : consumeDailyFree (some s) uid today =
              (true, some (updateUser s uid fun r =>
                { r with daily_free_used := r.daily_free_used + 1 })) := by
            simp [consumeDailyFree, getDailyFreeRemaining, checkAndResetDailyFree, he,
              hd, getUser, hu, hrem, hlt]
          rw [hcd]
          simp only [freeUsedOf, getUser, hg]
          simp only [FREE_DAILY_LIMIT] at hlt ⊢
          simp
          omega
        · have hrem : ¬(0 : Int) < FREE_DAILY_LIMIT - u.daily_free_used := by
            simp only [FREE_DAILY_LIMIT] at hlt ⊢
            omega
          have hge : FREE_DAILY_LIMIT ≤ u.daily_free_used := le_of_not_lt hlt
          have hcd : consumeDailyFree (some s) uid today = (false, some s) := by
            simp [consumeDailyFree, getDailyFreeRemaining, checkAndResetDailyFree, he,
              hd, getUser, hu, hrem, hge]
          rw [hcd]
          simpa only [freeUsedOf, getUser, hu] using hfu
      · have hg := lookup_updateUser s uid
          (fun r => { r with daily_free_used := 0, daily_reset_date := some today })
        rw [hu] at hg
        have he2 := ensureUser_lookup_some
          (updateUser s uid fun r =>
            { r with daily_free_used := 0, daily_reset_date := some today })
          uid today { u with daily_free_used := 0, daily_reset_date := some today }
          (by simpa using hg)
        have hrem : (0 : Int) < FREE_DAILY_LIMIT := by norm_num [FREE_DAILY_LIMIT]
        have hcd : consumeDailyFree (some s) uid today =
            (true, some (updateUser (updateUser s uid fun r =>
                { r with daily_free_used := 0, daily_reset_date := some today }) uid
              fun r => { r with daily_free_used := r.daily_free_used + 1 })) := by
          simp [consumeDailyFree, getDailyFreeRemaining, checkAndResetDailyFree, he,
            he2, hd, getUser, hg, hrem]
        have hg2 := lookup_updateUser
          (updateUser s uid fun r =>
            { r with daily_free_used := 0, daily_reset_date := some today })
          uid (fun r => { r with daily_free_used := r.daily_free_used + 1 })
        rw [hg] at hg2
        rw [hcd]
        simp only [freeUsedOf, getUser, hg2]
        simp [FREE_DAILY_LIMIT]
  · intro s uid today u hu
    have he := ensureUser_lookup_some s uid today u hu
    have hstale : u.daily_reset_date ≠ some today →
        checkAndResetDailyFree (some s) uid today =
          some (updateUser s uid fun r =>
            { r with daily_free_used := 0, daily_reset_date := some today }) := by
      intro hd
      simp [checkAndResetDailyFree, he, hd]
    have hfreshd : u.daily_reset_date = some today →
        checkAndResetDailyFree (some s) uid today = some s := by
      intro hd
      simp [checkAndResetDailyFree, he, hd]
    refine ⟨hstale, hfreshd, ?_⟩
    by_cases hd : u.daily_reset_date = some today
    · rw [hfreshd hd, hfreshd hd]
    · rw [hstale hd]
      have hg := lookup_updateUser s uid
        (fun r => { r with daily_free_used := 0, daily_reset_date := some today })
      rw [hu] at hg
      have he2 := ensureUser_lookup_some
        (updateUser s uid fun r =>
          { r with daily_free_used := 0, daily_reset_date := some today })
        uid today { u with daily_free_used := 0, daily_reset_date := some today }
        (by simpa using hg)
      simp [checkAndResetDailyFree, he2]

/-- C6 witness: the fresh user on one day gets free, free, free, denied; a
counter at 2 stays within the limit after one more consumption; a stale
reset date is rewritten to today with the counter zeroed. -/
theorem c6_daily_free_limit_witness :
    (runChecks (some (⟨[], []⟩ : DBState)) "u" 0 0 4).1 =
      [{ allowed := true, reason := "free", consumeType := some "free" },
       { allowed := true, reason := "free", consumeType := some "free" },
       { allowed := true, reason := "free", consumeType := some "free" },
       { allowed := false, reason := "no_access", consumeType := none }] ∧
    freeUsedOf (consumeDailyFree (some ⟨[("u", zeroRow 0 2)], []⟩) "u" 0).2 "u"
      ≤ FREE_DAILY_LIMIT ∧
    checkAndResetDailyFree (some ⟨[("u", zeroRow 1 3)], []⟩) "u" 5 =
      some (updateUser ⟨[("u", zeroRow 1 3)], []⟩ "u" fun r =>
        { r with daily_free_used := 0, daily_reset_date := some 5 }) :=
  ⟨c6_daily_free_limit.1 ⟨[], []⟩ "u" 0 0 rfl,
   c6_daily_free_limit.2.1 ⟨[("u", zeroRow 0 2)], []⟩ "u" 0 (by decide),
   (c6_daily_free_limit.2.2 ⟨[("u", zeroRow 1 3)], []⟩ "u" 5 (zeroRow 1 3)
     (by decide)).1 (by decide)⟩

/-! Facts about the payment log and crediting operations. -/

theorem isPaymentUsed_addCredits (s : DBState) (uid : String) (n : Int) (today : Nat)
    (tx : String) :
    isPaymentUsed (addCredits (some s) uid n today) tx = isPaymentUsed (some s) tx := by
  rcases hu : s.users.lookup uid with _ | u
  · have he := ensureUser_lookup_none s uid today hu
    simp [addCredits, he, isPaymentUsed, updateUser]
  · have he := ensureUser_lookup_some s uid today u hu
    simp [addCredits, he, isPaymentUsed, updateUser]

theorem paymentCount_addCredits (s : DBState) (uid : String) (n : Int) (today : Nat)
    (tx : String) :
    paymentCount (addCredits (some s) uid n today) tx = paymentCount (some s) tx := by
  rcases hu : s.users.lookup uid with _ | u
  · have he := ensureUser_lookup_none s uid today hu
    simp [addCredits, he, paymentCount, updateUser]
  · have he := ensureUser_lookup_some s uid today u hu
    simp [addCredits, he, paymentCount, updateUser]

theorem isPaymentUsed_grantPro (s : DBState) (uid : String) (dd : Nat) (now today : Nat)
    (tx : String) :
    isPaymentUsed (grantPro (some s) uid dd now today) tx = isPaymentUsed (some s) tx := by
  rcases hu : s.users.lookup uid with _ | u
  · have he := ensureUser_lookup_none s uid today hu
    simp [grantPro, he, isPaymentUsed, updateUser]
  · have he := ensureUser_lookup_some s uid today u hu
    simp [grantPro, he, isPaymentUsed, updateUser]

theorem paymentCount_grantPro (s : DBState) (uid : String) (dd : Nat) (now today : Nat)
    (tx : String) :
    paymentCount (grantPro (some s) uid dd now today) tx = paymentCount (some s) tx := by
  rcases hu : s.users.lookup uid with _ | u
  · have he := ensureUser_lookup_none s uid today hu
    simp [grantPro, he, paymentCount, updateUser]
  · have he := ensureUser_lookup_some s uid today u hu
    simp [grantPro, he, paymentCount, updateUser]

theorem creditsOf_addCredits (s : DBState) (uid : String) (n : Int) (today : Nat) :
    creditsOf (addCredits (some s) uid n today) uid = creditsOf (some s) uid + n := by
  rcases hu : s.users.lookup uid with _ | u
  · have he := ensureUser_lookup_none s uid today hu
    have hl : (s.users ++ [(uid, freshRow today)]).lookup uid = some (freshRow today) :=
      lookup_append_singleton s.users uid (freshRow today) hu
    have hg := lookup_updateUser { s with users := s.users ++ [(uid, freshRow today)] } uid
      (fun r => { r with credits := r.credits + n })
    rw [show ({ s with users := s.users ++ [(uid, freshRow today)] } : DBState).users
          = s.users ++ [(uid, freshRow today)] from rfl, hl] at hg
    simp [addCredits, he, creditsOf, getUser, hu, hg]
  · have he := ensureUser_lookup_some s uid today u hu
    have hg := lookup_updateUser s uid (fun r => { r with credits := r.credits + n })
    rw [hu] at hg
    simp [addCredits, he, creditsOf, getUser, hu, hg]

/-- On a successful verification, the reported Pro classification is
exactly the decoded amount compared against the Pro price, and the decoded
amount is non-negative (it is a raw token value over 10^6). -/
theorem verify_success_shape (chain : String → Option ChainTx) (receiver txHash : String)
    (a : ℚ) (hv : (verifyPaymentOnChain chain receiver txHash).verified = true)
    (ha : (verifyPaymentOnChain chain receiver txHash).amount = some a) :
    (verifyPaymentOnChain chain receiver txHash).isProAmount
      = some (decide (PRO_PRICE_USDC ≤ a)) ∧ 0 ≤ a := by
  rcases hc : chain txHash with _ | t
  · simp [verifyPaymentOnChain, hc] at hv
  · by_cases h2 : t.receiptStatus ≠ some 1
    · simp [verifyPaymentOnChain, hc, h2] at hv
    · by_cases h3 : t.toAddr.map jsToLower ≠ some (jsToLower USDC_ADDRESS)
      · simp [verifyPaymentOnChain, hc, h2, h3] at hv
      · rcases h4 : t.logs.find? (fun l => jsToLower l.toAddr == jsToLower receiver)
          with _ | l
        · simp [verifyPaymentOnChain, hc, h2, h3, h4] at hv
        · rw [verifyPaymentOnChain] at ha ⊢
          simp only [hc, h2, h3, h4, if_false, if_neg, ite_false] at ha ⊢
          simp [h2, h3] at ha ⊢
          subst ha
          exact ⟨Iff.rfl, by positivity⟩

/-- C10: a verified underpayment — a decoded amount strictly between zero
and the single-credit price — permanently consumes the transaction hash
while granting nothing: the handler records the payment (so the hash is
redeemable never again) and then adds floor(amount / 0.1) = 0 credits,
leaving the balance of the user unchanged. -/
theorem c10_underpayment_burns_tx (s : DBState) (chain : String → Option ChainTx)
    (receiver uid tx : String) (now today : Nat) (a : ℚ)
    (hused : isPaymentUsed (some s) tx = false)
    (hv : (verifyPaymentOnChain chain receiver tx).verified = true)
    (ha : (verifyPaymentOnChain chain receiver tx).amount = some a)
    (hpos : 0 < a) (hlow : a < SINGLE_CREDIT_PRICE_USDC) :
    ∃ db1, verifyPaymentHandler (some s) chain receiver uid (some tx) now today =
        (.creditedSingle 0, db1) ∧
      isPaymentUsed db1 tx = true ∧
      creditsOf db1 uid = creditsOf (some s) uid ∧
      paymentCount db1 tx = paymentCount (some s) tx + 1 := by
  have hshape := verify_success_shape chain receiver tx a hv ha
  have hnotpro : ¬PRO_PRICE_USDC ≤ a := by
    have hlim : SINGLE_CREDIT_PRICE_USDC < PRO_PRICE_USDC := by
      norm_num [SINGLE_CREDIT_PRICE_USDC, PRO_PRICE_USDC]
    exact not_le.mpr (lt_trans hlow hlim)
  have hiso : (verifyPaymentOnChain chain receiver tx).isProAmount = some false := by
    rw [hshape.1]
    simp [hnotpro]
  have hfloor : (⌊a / SINGLE_CREDIT_PRICE_USDC⌋ : Int) = 0 := by
    rw [Int.floor_eq_zero_iff]
    refine ⟨div_nonneg (le_of_lt hpos) (by norm_num [SINGLE_CREDIT_PRICE_USDC]), ?_⟩
    rw [div_lt_one (by norm_num [SINGLE_CREDIT_PRICE_USDC])]
    exact hlow
  have haz : (a == 0) = false := by
    simp only [beq_eq_false_iff_ne]
    exact ne_of_gt hpos
  have hrp : recordPayment (some s) tx uid a "single" =
      some { s with payments := s.payments ++ [⟨tx, uid, a, "single"⟩] } := rfl
  have hhandler : verifyPaymentHandler (some s) chain receiver uid (some tx) now today =
      (.creditedSingle 0,
       addCredits (recordPayment (some s) tx uid a "single") uid 0 today) := by
    rw [verifyPaymentHandler]
    simp [hused, ha, hv, haz, hiso, hfloor]
  refine ⟨_, hhandler, ?_, ?_, ?_⟩
  · rw [hrp, isPaymentUsed_addCredits]
    simp [isPaymentUsed]
  · rw [hrp, creditsOf_addCredits]
    simp [creditsOf, getUser]
  · rw [hrp, paymentCount_addCredits]
    simp [paymentCount, List.filter_append]

/-- C10 witness: the concrete 0.05 USDC transaction against an empty
ledger burns the hash and credits nothing. -/
theorem c10_underpayment_burns_tx_witness :
    ∃ db1, verifyPaymentHandler (some (⟨[], []⟩ : DBState)) lowAmountChain
        RECEIVER_ADDRESS "u" (some "0xlow") 0 0 =
        (.creditedSingle 0, db1) ∧
      isPaymentUsed db1 "0xlow" = true ∧
      creditsOf db1 "u" = creditsOf (some (⟨[], []⟩ : DBState)) "u" ∧
      paymentCount db1 "0xlow" = paymentCount (some (⟨[], []⟩ : DBState)) "0xlow" + 1 :=
  c10_underpayment_burns_tx ⟨[], []⟩ lowAmountChain RECEIVER_ADDRESS "u" "0xlow" 0 0
    (((50000 : Nat) : ℚ) / 1000000) rfl
    (by simp [verifyPaymentOnChain, lowAmountChain])
    (by simp [verifyPaymentOnChain, lowAmountChain])
    (by norm_num) (by norm_num [SINGLE_CREDIT_PRICE_USDC])

theorem grantPro_isSome (s : DBState) (uid : String) (dd now today : Nat) :
    ∃ s2, grantPro (some s) uid dd now today = some s2 := by
  rcases hu : s.users.lookup uid with _ | u
  · simp only [grantPro, ensureUser_lookup_none s uid today hu]
    exact ⟨_, rfl⟩
  · simp only [grantPro, ensureUser_lookup_some s uid today u hu]
    exact ⟨_, rfl⟩

theorem addCredits_isSome (s : DBState) (uid : String) (n : Int) (today : Nat) :
    ∃ s2, addCredits (some s) uid n today = some s2 := by
  rcases hu : s.users.lookup uid with _ | u
  · simp only [addCredits, ensureUser_lookup_none s uid today hu]
    exact ⟨_, rfl⟩
  · simp only [addCredits, ensureUser_lookup_some s uid today u hu]
    exact ⟨_, rfl⟩

theorem paymentCount_zero_of_not_used (s : DBState) (tx : String)
    (h : isPaymentUsed (some s) tx = false) : paymentCount (some s) tx = 0 := by
  simp only [isPaymentUsed, List.any_eq_false] at h
  simp only [paymentCount, List.length_eq_zero, List.filter_eq_nil_iff]
  exact h

theorem creditingCount_cons (o : HandlerOutcome) (l : List HandlerOutcome) :
    creditingCount (o :: l) = (if isCrediting o then 1 else 0) + creditingCount l := by
  simp only [creditingCount, List.filter_cons]
  split <;> simp [Nat.add_comm]

/-- A submission whose transaction hash is already recorded is rejected
with the ledger untouched (verifyPaymentAction.handler lines 743-749). -/
theorem handler_already_used (db : X402DB) (chain : String → Option ChainTx)
    (recv uid tx : String) (now today : Nat) (h : isPaymentUsed db tx = true) :
    verifyPaymentHandler db chain recv uid (some tx) now today = (.alreadyUsed, db) := by
  simp [verifyPaymentHandler, h]

/-- A non-crediting handler run leaves the ledger unchanged. -/
theorem handler_not_crediting (db : X402DB) (chain : String → Option ChainTx)
    (recv uid tx : String) (now today : Nat)
    (h : isCrediting (verifyPaymentHandler db chain recv uid (some tx) now today).1 = false) :
    (verifyPaymentHandler db chain recv uid (some tx) now today).2 = db := by
  by_cases hused : isPaymentUsed db tx
  · simp [verifyPaymentHandler, hused]
  · rcases ham : (verifyPaymentOnChain chain recv tx).amount with _ | a
    · simp [verifyPaymentHandler, hused, ham]
    · cases hcond : ((verifyPaymentOnChain chain recv tx).verified && !(a == 0)) with
      | false => simp [verifyPaymentHandler, hused, ham, hcond]
      | true =>
        cases hpro : ((verifyPaymentOnChain chain recv tx).isProAmount == some true) with
        | true => simp [verifyPaymentHandler, hused, ham, hcond, hpro, isCrediting] at h
        | false => simp [verifyPaymentHandler, hused, ham, hcond, hpro, isCrediting] at h

/-- A crediting handler run starts from an unredeemed hash and ends with
the hash recorded: exactly one new payment row. -/
theorem handler_crediting_state (s : DBState) (chain : String → Option ChainTx)
    (recv uid tx : String) (now today : Nat)
    (h : isCrediting
      (verifyPaymentHandler (some s) chain recv uid (some tx) now today).1 = true) :
    ∃ s2, (verifyPaymentHandler (some s) chain recv uid (some tx) now today).2 = some s2 ∧
      isPaymentUsed (some s2) tx = true ∧
      paymentCount (some s2) tx = paymentCount (some s) tx + 1 := by
  by_cases hused : isPaymentUsed (some s) tx
  · simp [verifyPaymentHandler, hused, isCrediting] at h
  · rcases ham : (verifyPaymentOnChain chain recv tx).amount with _ | a
    · simp [verifyPaymentHandler, hused, ham, isCrediting] at h
    · cases hcond : ((verifyPaymentOnChain chain recv tx).verified && !(a == 0)) with
      | false => simp [verifyPaymentHandler, hused, ham, hcond, isCrediting] at h
      | true =>
        cases hpro : ((verifyPaymentOnChain chain recv tx).isProAmount == some true) with
        | true =>
          have hh : verifyPaymentHandler (some s) chain recv uid (some tx) now today =
              (.grantedPro,
               grantPro (some { s with payments := s.payments ++ [⟨tx, uid, a, "pro"⟩] })
                 uid PRO_DURATION_DAYS now today) := by
            simp [verifyPaymentHandler, hused, ham, hcond, hpro, recordPayment]
          obtain ⟨s2, hg⟩ := grantPro_isSome
            { s with payments := s.payments ++ [⟨tx, uid, a, "pro"⟩] }
            uid PRO_DURATION_DAYS now today
          refine ⟨s2, by rw [hh]; exact hg, ?_, ?_⟩
          · rw [← hg, isPaymentUsed_grantPro]
            simp [isPaymentUsed]
          · rw [← hg, paymentCount_grantPro]
            simp [paymentCount, List.filter_append]
        | false =>
          have hh : verifyPaymentHandler (some s) chain recv uid (some tx) now today =
              (.creditedSingle ⌊a / SINGLE_CREDIT_PRICE_USDC⌋,
               addCredits (some { s with payments := s.payments ++ [⟨tx, uid, a, "single"⟩] })
                 uid ⌊a / SINGLE_CREDIT_PRICE_USDC⌋ today) := by
            simp [verifyPaymentHandler, hused, ham, hcond, hpro, recordPayment]
          obtain ⟨s2, hg⟩ := addCredits_isSome
            { s with payments := s.payments ++ [⟨tx, uid, a, "single"⟩] }
            uid ⌊a / SINGLE_CREDIT_PRICE_USDC⌋ today
          refine ⟨s2, by rw [hh]; exact hg, ?_, ?_⟩
          · rw [← hg, isPaymentUsed_addCredits]
            simp [isPaymentUsed]
          · rw [← hg, paymentCount_addCredits]
            simp [paymentCount, List.filter_append]

/-- Once the hash is redeemed, every further same-hash submission is a
rejected no-op, crediting nothing and preserving the state. -/
theorem submitRun_after_redeemed (tx : String) (calls : List SubmitCall) :
    ∀ s : DBState, isPaymentUsed (some s) tx = true →
      creditingCount (submitRun tx (some s) calls).1 = 0 ∧
      (submitRun tx (some s) calls).2 = some s := by
  induction calls with
  | nil => intro s _; simp [submitRun, creditingCount]
  | cons c cs ih =>
    intro s h
    have hh := handler_already_used (some s) c.chain c.receiver c.uid tx c.now c.today h
    obtain ⟨h1, h2⟩ := ih s h
    simp only [submitRun, hh]
    rw [creditingCount_cons]
    simp [isCrediting, h1, h2]

/-- The payment-row count for a hash never exceeds one across any run of
same-hash submissions, given it starts at most one. -/
theorem submitRun_paymentCount (tx : String) (calls : List SubmitCall) :
    ∀ s : DBState, paymentCount (some s) tx ≤ 1 →
      paymentCount (submitRun tx (some s) calls).2 tx ≤ 1 := by
  induction calls with
  | nil => intro s h; simpa [submitRun] using h
  | cons c cs ih =>
    intro s h
    simp only [submitRun]
    cases hused : isPaymentUsed (some s) tx with
    | true =>
      rw [handler_already_used (some s) c.chain c.receiver c.uid tx c.now c.today hused]
      exact ih s h
    | false =>
      cases hcr : isCrediting
          (verifyPaymentHandler (some s) c.chain c.receiver c.uid (some tx) c.now c.today).1 with
      | true =>
        obtain ⟨s2, hst, _, hcount⟩ := handler_crediting_state s c.chain c.receiver c.uid
          tx c.now c.today hcr
        rw [hst]
        refine ih s2 ?_
        rw [hcount, paymentCount_zero_of_not_used s tx hused]
      | false =>
        rw [handler_not_crediting (some s) c.chain c.receiver c.uid tx c.now c.today hcr]
        exact ih s h

/-- C2: across every sequence of payment-proof submissions carrying one
transaction hash, the crediting operation (addCredits or grantPro) runs at
most once and at most one payment row for that hash is ever created; any
submission finding the hash recorded is rejected as already used with the
ledger unchanged. -/
theorem c2_txid_redeemed_once (tx : String) (s : DBState) (calls : List SubmitCall) :
    creditingCount (submitRun tx (some s) calls).1 ≤ 1 ∧
    (isPaymentUsed (some s) tx = false →
      paymentCount (submitRun tx (some s) calls).2 tx ≤ 1) ∧
    (∀ (db : X402DB) (c : SubmitCall), isPaymentUsed db tx = true →
      verifyPaymentHandler db c.chain c.receiver c.uid (some tx) c.now c.today =
        (.alreadyUsed, db)) := by
  refine ⟨?_, ?_, fun db c h =>
    handler_already_used db c.chain c.receiver c.uid tx c.now c.today h⟩
  · induction calls generalizing s with
    | nil => simp [submitRun, creditingCount]
    | cons c cs ih =>
      simp only [submitRun]
      cases hcr : isCrediting
          (verifyPaymentHandler (some s) c.chain c.receiver c.uid (some tx) c.now c.today).1 with
      | true =>
        obtain ⟨s2, hst, hused2, _⟩ := handler_crediting_state s c.chain c.receiver c.uid
          tx c.now c.today hcr
        rw [hst, creditingCount_cons, hcr]
        obtain ⟨hz, _⟩ := submitRun_after_redeemed tx cs s2 hused2
        simp [hz]
      | false =>
        rw [handler_not_crediting (some s) c.chain c.receiver c.uid tx c.now c.today hcr,
          creditingCount_cons, hcr]
        simpa using ih s
  · intro h
    exact submitRun_paymentCount tx calls s
      (by rw [paymentCount_zero_of_not_used s tx h]; omega)

/-- C2 witness: a first valid submission credits, the duplicate is
rejected with nothing changed. -/
theorem c2_txid_redeemed_once_witness :
    creditingCount (submitRun "0xlow" (some (⟨[], []⟩ : DBState))
      [⟨"u", lowAmountChain, RECEIVER_ADDRESS, 0, 0⟩,
       ⟨"u", lowAmountChain, RECEIVER_ADDRESS, 0, 0⟩]).1 ≤ 1 ∧
    paymentCount (submitRun "0xlow" (some (⟨[], []⟩ : DBState))
      [⟨"u", lowAmountChain, RECEIVER_ADDRESS, 0, 0⟩,
       ⟨"u", lowAmountChain, RECEIVER_ADDRESS, 0, 0⟩]).2 "0xlow" ≤ 1 :=
  ⟨(c2_txid_redeemed_once "0xlow" ⟨[], []⟩
      [⟨"u", lowAmountChain, RECEIVER_ADDRESS, 0, 0⟩,
       ⟨"u", lowAmountChain, RECEIVER_ADDRESS, 0, 0⟩]).1,
   (c2_txid_redeemed_once "0xlow" ⟨[], []⟩
      [⟨"u", lowAmountChain, RECEIVER_ADDRESS, 0, 0⟩,
       ⟨"u", lowAmountChain, RECEIVER_ADDRESS, 0, 0⟩]).2.1 rfl⟩

theorem consumedCount_cons (o : ProviderOutcome) (l : List ProviderOutcome) :
    consumedCount (o :: l) = (if outcomeConsumed o then 1 else 0) + consumedCount l := by
  simp only [consumedCount, List.filter_cons]
  split <;> simp [Nat.add_comm]

/-- An evaluation that observes an existing de-duplication marker never
consumes and leaves the marker map untouched. -/
theorem providerGet_marker_present (st : ProviderState) (envKey : Option String)
    (uid text key : String) (now today ts : Nat) (m : Marker)
    (hm : st.processedMessages.lookup key = some m) :
    outcomeConsumed (providerGet st envKey uid text key now today ts).1 = false ∧
    (providerGet st envKey uid text key now today ts).2.processedMessages
      = st.processedMessages := by
  by_cases h1 : specialSkip (jsToLower text)
  · simp [providerGet, h1, outcomeConsumed]
  · by_cases h2 : adminKeyMatches envKey text
    · simp [providerGet, h1, h2, outcomeConsumed]
    · cases h3 : m.hasAccess with
      | true => simp [providerGet, h1, h2, hm, h3, outcomeConsumed]
      | false => simp [providerGet, h1, h2, hm, h3, outcomeConsumed]

/-- A consuming evaluation leaves behind the marker recording the grant
and the consumption for its message fingerprint. -/
theorem providerGet_consumed_marker (st : ProviderState) (envKey : Option String)
    (uid text key : String) (now today ts : Nat)
    (h : outcomeConsumed (providerGet st envKey uid text key now today ts).1 = true) :
    (providerGet st envKey uid text key now today ts).2.processedMessages.lookup key
      = some ⟨uid, true, true, ts⟩ := by
  by_cases h1 : specialSkip (jsToLower text)
  · simp [providerGet, h1, outcomeConsumed] at h
  · by_cases h2 : adminKeyMatches envKey text
    · simp [providerGet, h1, h2, outcomeConsumed] at h
    · rcases hm : st.processedMessages.lookup key with _ | m
      · cases hal : (canAccess st.db uid now today).1.allowed with
        | false => simp [providerGet, h1, h2, hm, hal, outcomeConsumed] at h
        | true =>
          rcases hct : (canAccess st.db uid now today).1.consumeType with _ | ct
          · simp [providerGet, h1, h2, hm, hal, hct, outcomeConsumed] at h
          · simp [providerGet, h1, h2, hm, hal, hct, outcomeConsumed, lookup_setMarker]
      · cases h3 : m.hasAccess with
        | true => simp [providerGet, h1, h2, hm, h3, outcomeConsumed] at h
        | false => simp [providerGet, h1, h2, hm, h3, outcomeConsumed] at h

/-- Once a marker exists for the fingerprint, a whole run of evaluations
consumes nothing and the marker survives. -/
theorem providerRun_marker_zero (key : String) (calls : List ProvCall) :
    ∀ st : ProviderState, (st.processedMessages.lookup key).isSome →
      consumedCount (providerRun key st calls).1 = 0 ∧
      ((providerRun key st calls).2.processedMessages.lookup key).isSome := by
  induction calls with
  | nil =>
    intro st h
    exact ⟨rfl, h⟩
  | cons c cs ih =>
    intro st h
    rcases hm : st.processedMessages.lookup key with _ | m
    · rw [hm] at h
      simp at h
    · obtain ⟨hc0, hpm⟩ := providerGet_marker_present st c.envKey c.uid c.text key
        c.now c.today c.ts m hm
      have hsome : (((providerGet st c.envKey c.uid c.text key c.now c.today
          c.ts).2).processedMessages.lookup key).isSome := by
        rw [hpm, hm]
        rfl
      obtain ⟨ih1, ih2⟩ := ih _ hsome
      simp only [providerRun]
      rw [consumedCount_cons, hc0]
      simp [ih1, ih2]

/-- Any run of same-fingerprint evaluations consumes at most once. -/
theorem providerRun_at_most_once (key : String) (calls : List ProvCall) :
    ∀ st : ProviderState, consumedCount (providerRun key st calls).1 ≤ 1 := by
  induction calls with
  | nil =>
    intro st
    simp [providerRun, consumedCount]
  | cons c cs ih =>
    intro st
    simp only [providerRun]
    rw [consumedCount_cons]
    cases hc : outcomeConsumed
        (providerGet st c.envKey c.uid c.text key c.now c.today c.ts).1 with
    | false => simpa [hc] using ih _
    | true =>
      have hmk := providerGet_consumed_marker st c.envKey c.uid c.text key
        c.now c.today c.ts hc
      have hz := (providerRun_marker_zero key cs _ (by rw [hmk]; rfl)).1
      simp [hc, hz]

/-- C4: across every sequence of provider evaluations sharing one message
fingerprint, the ledger consumption operation runs at most once; the first
evaluator that finds no marker and a positive verdict with a consumable
resource consumes it and writes the marker with consumed = true; and every
evaluator that finds a marker with hasAccess = true reports shared access
and touches nothing. -/
theorem c4_message_dedup (key : String) :
    (∀ (st : ProviderState) (calls : List ProvCall),
      consumedCount (providerRun key st calls).1 ≤ 1) ∧
    (∀ (st : ProviderState) (envKey : Option String) (uid text : String)
        (now today ts : Nat) (ct : String),
      st.processedMessages.lookup key = none →
      specialSkip (jsToLower text) = false →
      adminKeyMatches envKey text = false →
      (canAccess st.db uid now today).1.allowed = true →
      (canAccess st.db uid now today).1.consumeType = some ct →
      providerGet st envKey uid text key now today ts =
        (.granted (canAccess st.db uid now today).1.reason true,
         { processedMessages := setMarker st.processedMessages key ⟨uid, true, true, ts⟩,
           db := consumeAccess
             (getUserStatus (canAccess st.db uid now today).2 uid now today).2
             uid ct today }) ∧
      (providerGet st envKey uid text key now today ts).2.processedMessages.lookup key
        = some ⟨uid, true, true, ts⟩) ∧
    (∀ (st : ProviderState) (envKey : Option String) (uid text : String)
        (now today ts : Nat) (m : Marker),
      st.processedMessages.lookup key = some m →
      m.hasAccess = true →
      specialSkip (jsToLower text) = false →
      adminKeyMatches envKey text = false →
      providerGet st envKey uid text key now today ts = (.sharedGranted, st)) := by
  refine ⟨fun st calls => providerRun_at_most_once key calls st, ?_, ?_⟩
  · intro st envKey uid text now today ts ct hm h1 h2 hal hct
    constructor
    · simp [providerGet, h1, h2, hm, hal, hct]
    · simp [providerGet, h1, h2, hm, hal, hct, lookup_setMarker]
  · intro st envKey uid text now today ts m hm hacc h1 h2
    simp [providerGet, h1, h2, hm, hacc]

/-- C4 witness: for a user holding one credit, the first evaluation of a
fresh fingerprint consumes it and writes the marker, a later evaluation
that sees a granted marker reports shared access unchanged, and a
two-evaluation run consumes at most once. -/
theorem c4_message_dedup_witness :
    consumedCount (providerRun "k"
      ⟨[], some ⟨[("u", { zeroRow 0 0 with credits := 1 })], []⟩⟩
      [⟨none, "u", "hello", 0, 0, 0⟩, ⟨none, "u", "hello", 0, 0, 0⟩]).1 ≤ 1 ∧
    providerGet ⟨[], some ⟨[("u", { zeroRow 0 0 with credits := 1 })], []⟩⟩
        none "u" "hello" "k" 0 0 0 =
      (.granted (canAccess (some ⟨[("u", { zeroRow 0 0 with credits := 1 })], []⟩)
          "u" 0 0).1.reason true,
       { processedMessages := setMarker [] "k" ⟨"u", true, true, 0⟩,
         db := consumeAccess
           (getUserStatus (canAccess
             (some ⟨[("u", { zeroRow 0 0 with credits := 1 })], []⟩) "u" 0 0).2
             "u" 0 0).2 "u" "credit" 0 }) ∧
    providerGet ⟨[("k", ⟨"u", true, true, 0⟩)],
        some ⟨[("u", { zeroRow 0 0 with credits := 1 })], []⟩⟩
        none "u" "hello" "k" 0 0 0 =
      (.sharedGranted,
       ⟨[("k", ⟨"u", true, true, 0⟩)],
        some ⟨[("u", { zeroRow 0 0 with credits := 1 })], []⟩⟩) :=
  ⟨(c4_message_dedup "k").1
     ⟨[], some ⟨[("u", { zeroRow 0 0 with credits := 1 })], []⟩⟩
     [⟨none, "u", "hello", 0, 0, 0⟩, ⟨none, "u", "hello", 0, 0, 0⟩],
   ((c4_message_dedup "k").2.1
     ⟨[], some ⟨[("u", { zeroRow 0 0 with credits := 1 })], []⟩⟩
     none "u" "hello" 0 0 0 "credit" rfl (by decide) (by decide)
     (by decide) (by decide)).1,
   (c4_message_dedup "k").2.2
     ⟨[("k", ⟨"u", true, true, 0⟩)],
      some ⟨[("u", { zeroRow 0 0 with credits := 1 })], []⟩⟩
     none "u" "hello" 0 0 0 ⟨"u", true, true, 0⟩ rfl rfl (by decide) (by decide)⟩

end X402
